import Mathlib

/-!
Verification development for the axigui repository.

The Python sources are shallowly embedded: 2D points are pairs of rationals
(exact arithmetic standing in for the floating-point computations), a vpype
`LineCollection` is a list of polylines, a vpype `VectorData` is the ordered
association list mapping layer identifiers to line collections (Python dicts
preserve insertion order), and the stateful Qt widgets become explicit state
records with pure transition functions.  Invocations of the plotter driver,
of matplotlib's `canvas.draw()` and of the `_replot`/`update_view` methods
are counted with explicit counters so that claims of the form "invokes X
exactly once" are observable.
-/

/-- A 2D point (vpype stores points as complex numbers; we use pairs). -/
abbrev Point := ℚ × ℚ

/-- A polyline: an ordered list of points. -/
abbrev Line := List Point

/-- A vpype `LineCollection`: an ordered list of polylines. -/
abbrev LineCollection := List Line

/-- A vpype `VectorData`: ordered association of layer id to line collection. -/
abbrev VectorData := List (Nat × LineCollection)

namespace VectorData

/-- Layer identifiers, in iteration order (`self._vector_data.layers` keys). -/
def layerIds (vd : VectorData) : List Nat := vd.map (fun p => p.1)

/-- Apply a point transformation to every point of every line of every layer. -/
def mapPoints (f : Point → Point) (vd : VectorData) : VectorData :=
  vd.map (fun p => (p.1, p.2.map (List.map f)))

/-- vpype `VectorData.translate(dx, dy)`. -/
def translate (dx dy : ℚ) (vd : VectorData) : VectorData :=
  mapPoints (fun q => (q.1 + dx, q.2 + dy)) vd

/-- vpype `VectorData.scale(s)` (uniform scaling about the origin). -/
def scale (s : ℚ) (vd : VectorData) : VectorData :=
  mapPoints (fun q => (s * q.1, s * q.2)) vd

/-- vpype `VectorData.rotate(-math.pi / 2)`: the exact quarter-turn
`(x, y) ↦ (y, -x)` (multiplication by `exp(-i·π/2) = -i`). -/
def rotateNeg90 (vd : VectorData) : VectorData :=
  mapPoints (fun q => (q.2, -q.1)) vd

/-- All points of the drawing, in order. -/
def allPoints (vd : VectorData) : List Point :=
  (vd.map (fun p => p.2.flatten)).flatten

/-- vpype `VectorData.add(lc, layer_id)`: extend the layer if it already
exists, otherwise append a new layer at the end. -/
def add (vd : VectorData) (lc : LineCollection) (layer_id : Nat) : VectorData :=
  if layer_id ∈ layerIds vd then
    vd.map (fun p => if p.1 = layer_id then (p.1, p.2 ++ lc) else p)
  else vd ++ [(layer_id, lc)]

end VectorData

/-- An axis-aligned bounding box, as returned by vpype `VectorData.bounds()`:
`(min_x, min_y, max_x, max_y)`. -/
structure BBox where
  minX : ℚ
  minY : ℚ
  maxX : ℚ
  maxY : ℚ
deriving DecidableEq

/-- Extend a bounding box by one point. -/
def stretch (b : BBox) (p : Point) : BBox :=
  ⟨min b.minX p.1, min b.minY p.2, max b.maxX p.1, max b.maxY p.2⟩

/-- Bounding box of a list of points (`none` when there is no point). -/
def bboxOfPoints : List Point → Option BBox
  | [] => none
  | p :: ps => some (ps.foldl stretch ⟨p.1, p.2, p.1, p.2⟩)

/-- vpype `VectorData.bounds()`: `None` for a drawing with no point. -/
def VectorData.bounds (vd : VectorData) : Option BBox :=
  bboxOfPoints (VectorData.allPoints vd)

/-- `main._mm_to_px` (one coordinate): `x * 96.0 / 25.4`. -/
def mmToPx (x : ℚ) : ℚ := x * 96 / 25.4

/-- The keys of `main.PAGE_FORMATS`. -/
inductive PageFormatT
  | a6
  | a5
  | a4
  | a3
  | letter
  | legal
  | executive
deriving DecidableEq

/-- `main.PAGE_FORMATS`: named page sizes in pixels. -/
def pageSizePx : PageFormatT → ℚ × ℚ
  | .a6 => (mmToPx 105, mmToPx 148)
  | .a5 => (mmToPx 148, mmToPx 210)
  | .a4 => (mmToPx 210, mmToPx 297)
  | .a3 => (mmToPx 297, mmToPx 420)
  | .letter => (mmToPx 215.9, mmToPx 279.4)
  | .legal => (mmToPx 215.9, mmToPx 355.6)
  | .executive => (mmToPx 185.15, mmToPx 266.7)

/-- The string key of a page format (as shown in the combo box / stored in
`QSettings`). -/
def pfName : PageFormatT → String
  | .a6 => "A6"
  | .a5 => "A5"
  | .a4 => "A4"
  | .a3 => "A3"
  | .letter => "Letter"
  | .legal => "Legal"
  | .executive => "Executive"

/-- The units offered by `utils.UnitComboBox`. -/
inductive UnitT
  | px
  | cm
  | mm
  | inch
  | pc
deriving DecidableEq

/-- vpype `convert(unit)`: CSS-pixel conversion factors. -/
def convert : UnitT → ℚ
  | .px => 1
  | .cm => 96 / 2.54
  | .mm => 96 / 25.4
  | .inch => 96
  | .pc => 16

/-- The unit's name string. -/
def unitName : UnitT → String
  | .px => "px"
  | .cm => "cm"
  | .mm => "mm"
  | .inch => "in"
  | .pc => "pc"

/-- A value held in the `QSettings` key-value store. -/
inductive SVal
  | b : Bool → SVal
  | q : ℚ → SVal
  | s : String → SVal
deriving DecidableEq

/-- The `QSettings` persistent key-value store (one group). -/
abbrev Store := List (String × SVal)

/-- `QSettings.setValue(key, value)`: the new binding shadows any older one
(`storeGet` returns the first match, so prepending models overriding). -/
def storeSet (st : Store) (k : String) (v : SVal) : Store :=
  (k, v) :: st

/-- Look a key up in the store. -/
def storeGet : Store → String → Option SVal
  | [], _ => none
  | (k, v) :: r, key => if key = k then some v else storeGet r key

/-- First-match association lookup (Python `dict.__getitem__` on insertion
order, partial form). -/
def alookup {α : Type} : List (Nat × α) → Nat → Option α
  | [], _ => none
  | (k, v) :: r, key => if key = k then some v else alookup r key

/-- The layout settings of `main.PlotControlWidget` (section "settings" of
its constructor). -/
structure LayoutSettings where
  page_format : PageFormatT
  landscape : Bool
  rotated : Bool
  center : Bool
  fit_page : Bool
  margin_value : ℚ
  margin_unit : UnitT
deriving DecidableEq

/-- The effective page size of `update_view`: `PAGE_FORMATS[...]`, swapped
when `self.landscape`. -/
def effSize (s : LayoutSettings) : ℚ × ℚ :=
  if s.landscape then ((pageSizePx s.page_format).2, (pageSizePx s.page_format).1)
  else pageSizePx s.page_format

/-- The configured margin in pixels:
`self.margin_value * vpype.convert(self.margin_unit)`. -/
def marginPx (s : LayoutSettings) : ℚ := s.margin_value * convert s.margin_unit

/-- The rotation step of `update_view`: when `self.rotated`, rotate by
`-pi/2` and translate by `(0, height)`. -/
def postRotate (s : LayoutSettings) (base : VectorData) : VectorData :=
  if s.rotated then VectorData.translate 0 (effSize s).2 (VectorData.rotateNeg90 base)
  else base

/-- `factor_x = (width - 2 * margin) / (max_x - min_x)` in `update_view`. -/
def fitFactorX (s : LayoutSettings) (b : BBox) : ℚ :=
  ((effSize s).1 - 2 * marginPx s) / (b.maxX - b.minX)

/-- `factor_y = (height - 2 * margin) / (max_y - min_y)` in `update_view`. -/
def fitFactorY (s : LayoutSettings) (b : BBox) : ℚ :=
  ((effSize s).2 - 2 * marginPx s) / (b.maxY - b.minY)

/-- The `fit_page` branch of `update_view`: translate the bounding box to the
origin, scale by `min(factor_x, factor_y)`, then translate flush to the
margin on the constraining axis and centered in the margin band on the
other. -/
def placeFit (s : LayoutSettings) (b : BBox) (vd : VectorData) : VectorData :=
  if fitFactorX s b < fitFactorY s b then
    VectorData.translate (marginPx s)
      (marginPx s +
        ((effSize s).2 - 2 * marginPx s -
            (b.maxY - b.minY) * min (fitFactorX s b) (fitFactorY s b)) / 2)
      (VectorData.scale (min (fitFactorX s b) (fitFactorY s b))
        (VectorData.translate (-b.minX) (-b.minY) vd))
  else
    VectorData.translate
      (marginPx s +
        ((effSize s).1 - 2 * marginPx s -
            (b.maxX - b.minX) * min (fitFactorX s b) (fitFactorY s b)) / 2)
      (marginPx s)
      (VectorData.scale (min (fitFactorX s b) (fitFactorY s b))
        (VectorData.translate (-b.minX) (-b.minY) vd))

/-- The placement part of `update_view` acting on the rotated drawing: skip
placement when the drawing has no bounds, otherwise fit to page, else center
on the full page, else leave as is. -/
def layoutStep (s : LayoutSettings) (vd : VectorData) : VectorData :=
  match VectorData.bounds vd with
  | none => vd
  | some b =>
    if s.fit_page then placeFit s b vd
    else if s.center then
      VectorData.translate (((effSize s).1 - (b.maxX - b.minX)) / 2 - b.minX)
        (((effSize s).2 - (b.maxY - b.minY)) / 2 - b.minY) vd
    else vd

/-- `main.PlotControlWidget.update_view` as a pure function: from the
untouched base drawing (the method starts from
`copy.deepcopy(self.base_vector_data)`) and the settings, produce the placed
drawing and the effective page size. -/
def updateView (base : VectorData) (s : LayoutSettings) : VectorData × ℚ × ℚ :=
  (layoutStep s (postRotate s base), effSize s)

namespace Axy

/-- The fields of the underlying `pyaxidraw` driver's `options` object that
`axy.Axy` writes. -/
structure Options where
  mode : String
  manual_cmd : String
  walk_dist : ℚ
  auto_rotate : Bool
deriving DecidableEq

/-- The driver handle: its options plus a counter of `plot_run()`
invocations. -/
structure State where
  options : Options
  runCount : Nat
deriving DecidableEq

/-- `Axy.walk_x`: a no-op at distance 0, otherwise set the manual walk
command and run the driver once. -/
def walk_x (ad : State) (x : ℚ) : State :=
  if x = 0 then ad
  else
    { ad with
      options := { ad.options with mode := "manual", manual_cmd := "walk_x", walk_dist := x }
      runCount := ad.runCount + 1 }

/-- `Axy.walk_y`: a no-op at distance 0, otherwise set the manual walk
command and run the driver once. -/
def walk_y (ad : State) (y : ℚ) : State :=
  if y = 0 then ad
  else
    { ad with
      options := { ad.options with mode := "manual", manual_cmd := "walk_y", walk_dist := y }
      runCount := ad.runCount + 1 }

end Axy

namespace VectorDataPlotWidget

/-- `vector_data_plot_widget.COLORS` (matplotlib default two-digit palette,
RGB triples). -/
def COLORS : List (ℚ × ℚ × ℚ) :=
  [(0, 0, 1), (0, 0.5, 0), (1, 0, 0), (0, 0.75, 0.75), (0, 1, 0),
    (0.75, 0, 0.75), (0.75, 0.75, 0), (0, 0, 0)]

/-- The widget's `Layer` dataclass.  The transient matplotlib artists held in
`lines` are abstracted to the only attribute the code ever touches on them,
their visibility flag (`Artist.set_visible`). -/
structure Layer where
  color : ℚ × ℚ × ℚ
  lines : List Bool
  visible : Bool
deriving DecidableEq

/-- The state of `VectorDataPlotWidget`: the owned drawing, page rectangle,
viewport-reset flag, layer registry, the display settings, the persistent
store, and counters of `_replot` passes and `canvas.draw()` calls. -/
structure State where
  vector_data : VectorData
  page_format : ℚ × ℚ
  init_lims : Bool
  layers : List (Nat × Layer)
  unit : UnitT
  colorful : Bool
  show_points : Bool
  show_pen_up : Bool
  show_axes : Bool
  show_grid : Bool
  show_legend : Bool
  store : Store
  replotCount : Nat
  canvasDrawCount : Nat
deriving DecidableEq

/-- The widget state right after `__init__` (with an empty persisted store,
so every settings lookup returns its default). -/
def initState : State :=
  { vector_data := []
    page_format := (100, 100)
    init_lims := true
    layers := []
    unit := .cm
    colorful := false
    show_points := false
    show_pen_up := false
    show_axes := false
    show_grid := false
    show_legend := true
    store := []
    replotCount := 0
    canvasDrawCount := 0 }

/-- The layer-registry loop of the `vector_data` setter: every layer gets
`visible=True`, fresh empty `lines`, and a palette color assigned
round-robin (`color_idx` incremented then wrapped modulo the palette
length). -/
def buildLayers : List Nat → Nat → List (Nat × Layer)
  | [], _ => []
  | lid :: rest, idx =>
    (lid, { color := COLORS.getD idx (0, 0, 0), lines := [], visible := true }) ::
      buildLayers rest (if COLORS.length ≤ idx + 1 then (idx + 1) % COLORS.length else idx + 1)

/-- The effect of `_replot` on the layer registry: for each layer of the
current drawing the `lines` artist list is rebuilt (abstracted to the
artists' visibility, which the visibility pass at the end of `_replot` sets
to the layer's `visible` flag). -/
def replotLayers (vd : VectorData) (ls : List (Nat × Layer)) : List (Nat × Layer) :=
  ls.map (fun p =>
    if p.1 ∈ VectorData.layerIds vd then (p.1, { p.2 with lines := [p.2.visible] }) else p)

/-- `VectorDataPlotWidget._replot`, abstracted to the state the claims
observe: it rebuilds the drawn primitives, consumes the `_init_lims` flag,
and ends with one `canvas.draw()`. -/
def replot (w : State) : State :=
  { w with
    layers := replotLayers w.vector_data w.layers
    init_lims := false
    replotCount := w.replotCount + 1
    canvasDrawCount := w.canvasDrawCount + 1 }

/-- The `vector_data` property setter: store the drawing, schedule a
viewport reset, rebuild the layer registry from scratch, and replot. -/
def set_vector_data (w : State) (vd : VectorData) : State :=
  replot
    { w with
      vector_data := vd
      init_lims := true
      layers := buildLayers (VectorData.layerIds vd) 0 }

/-- The `page_format` property setter. -/
def set_page_format (w : State) (size : ℚ × ℚ) : State :=
  replot { w with page_format := size, init_lims := true }

/-- The `unit` property setter. -/
def set_unit (w : State) (value : UnitT) : State :=
  replot
    { w with
      unit := value
      store := storeSet w.store "unit" (SVal.s (unitName value))
      init_lims := true }

/-- The `colorful` property setter. -/
def set_colorful (w : State) (value : Bool) : State :=
  replot { w with colorful := value, store := storeSet w.store "colorful" (SVal.b value) }

/-- The `show_points` property setter. -/
def set_show_points (w : State) (value : Bool) : State :=
  replot
    { w with show_points := value, store := storeSet w.store "show_points" (SVal.b value) }

/-- The `show_pen_up` property setter. -/
def set_show_pen_up (w : State) (value : Bool) : State :=
  replot
    { w with show_pen_up := value, store := storeSet w.store "show_pen_up" (SVal.b value) }

/-- The `show_axes` property setter: it writes both `_show_axes` and
`_show_grid`, and persists both keys. -/
def set_show_axes (w : State) (value : Bool) : State :=
  replot
    { w with
      show_axes := value
      show_grid := value
      store :=
        storeSet (storeSet w.store "show_axes" (SVal.b value)) "show_grid" (SVal.b value) }

/-- The `show_legend` property setter. -/
def set_show_legend (w : State) (value : Bool) : State :=
  replot
    { w with show_legend := value, store := storeSet w.store "show_legend" (SVal.b value) }

/-- `VectorDataPlotWidget.set_layer_visible`: guarded by
`if layer_id in self._layers`, it flips that layer's flag, propagates it to
that layer's artists, and issues one `canvas.draw()`. -/
def set_layer_visible (w : State) (layer_id : Nat) (visible : Bool) : State :=
  if layer_id ∈ w.layers.map (fun p => p.1) then
    { w with
      layers :=
        w.layers.map (fun p =>
          (p.1,
            if p.1 = layer_id then
              { p.2 with visible := visible, lines := p.2.lines.map (fun _ => visible) }
            else p.2))
      canvasDrawCount := w.canvasDrawCount + 1 }
  else w

/-- Modelled from the spec: the per-layer visibility accessor
`layer_visible(id)` is called from `main.py` (`plot_svg`,
`set_vector_data`) but its definition is missing from
`vector_data_plot_widget.py`; the spec states it is a pure accessor
defaulting to `false` for unknown identifiers. -/
def layer_visible (w : State) (layer_id : Nat) : Bool :=
  match alookup w.layers layer_id with
  | some l => l.visible
  | none => false

/-- Modelled from the spec: the per-layer color accessor `layer_color(id)`
is called from `main.py` but its definition is missing from
`vector_data_plot_widget.py`; the spec states it is a pure accessor
defaulting to black for unknown identifiers. -/
def layer_color (w : State) (layer_id : Nat) : ℚ × ℚ × ℚ :=
  match alookup w.layers layer_id with
  | some l => l.color
  | none => (0, 0, 0)

end VectorDataPlotWidget

namespace PlotControlWidget

/-- The state of `main.PlotControlWidget`: the untouched base drawing, the
placed drawing, the effective page size pushed to the plot widget, the
layout settings, the persistent store, the embedded plot widget, and a
counter of `update_view` invocations. -/
structure State where
  base_vector_data : VectorData
  vector_data : VectorData
  page : ℚ × ℚ
  settings : LayoutSettings
  store : Store
  plot : VectorDataPlotWidget.State
  relayoutCount : Nat
deriving DecidableEq

/-- `PlotControlWidget.update_view` as a state transition: recompute the
placed drawing from a deep copy of the untouched base drawing, then push the
result and the page size to the plot widget (in that order). -/
def update_view (st : State) : State :=
  { st with
    vector_data := (updateView st.base_vector_data st.settings).1
    page := (updateView st.base_vector_data st.settings).2
    plot :=
      VectorDataPlotWidget.set_page_format
        (VectorDataPlotWidget.set_vector_data st.plot
          (updateView st.base_vector_data st.settings).1)
        (updateView st.base_vector_data st.settings).2
    relayoutCount := st.relayoutCount + 1 }

/-- `PlotControlWidget.set_page_format`. -/
def set_page_format (st : State) (pf : PageFormatT) : State :=
  update_view
    { st with
      settings := { st.settings with page_format := pf }
      store := storeSet st.store "page_format" (SVal.s (pfName pf)) }

/-- `PlotControlWidget.set_landscape`. -/
def set_landscape (st : State) (landscape : Bool) : State :=
  update_view
    { st with
      settings := { st.settings with landscape := landscape }
      store := storeSet st.store "landscape" (SVal.b landscape) }

/-- `PlotControlWidget.set_rotated`. -/
def set_rotated (st : State) (rotated : Bool) : State :=
  update_view
    { st with
      settings := { st.settings with rotated := rotated }
      store := storeSet st.store "rotated" (SVal.b rotated) }

/-- `PlotControlWidget.set_center`. -/
def set_center (st : State) (center : Bool) : State :=
  update_view
    { st with
      settings := { st.settings with center := center }
      store := storeSet st.store "center" (SVal.b center) }

/-- `PlotControlWidget.set_fit_page`. -/
def set_fit_page (st : State) (fit_page : Bool) : State :=
  update_view
    { st with
      settings := { st.settings with fit_page := fit_page }
      store := storeSet st.store "fit_page" (SVal.b fit_page) }

/-- `PlotControlWidget.set_margin`: persist both fields, then re-layout only
when `self.fit_page` holds. -/
def set_margin (st : State) (value : ℚ) (unit : UnitT) : State :=
  let st1 : State :=
    { st with
      settings := { st.settings with margin_value := value, margin_unit := unit }
      store :=
        storeSet (storeSet st.store "margin_value" (SVal.q value)) "margin_unit"
          (SVal.s (unitName unit)) }
  if st1.settings.fit_page then update_view st1 else st1

/-- The drawing assembled by `PlotControlWidget.plot_svg` and handed (as
serialized SVG) to `axy.plot_svg`: every visible layer's line collection is
added to a fresh `VectorData` under layer id 1. -/
def plot_svg_data (st : State) : VectorData :=
  st.vector_data.foldl
    (fun acc p =>
      if VectorDataPlotWidget.layer_visible st.plot p.1 then VectorData.add acc p.2 1
      else acc)
    []

end PlotControlWidget

/-- A three-layer sample drawing with layer identifiers 1, 2, 3. -/
def sampleDrawingA : VectorData :=
  [(1, [[(0, 0), (1, 0)]]), (2, [[(0, 1), (1, 1)]]), (3, [[(0, 2), (1, 2)]])]

/-- Another drawing with the same layer-identifier set but different
geometry. -/
def sampleDrawingB : VectorData :=
  [(1, [[(5, 5), (6, 5)]]), (2, [[(5, 6), (6, 6)]]), (3, [[(5, 7), (6, 7)]])]

/-- The plot widget after loading `sampleDrawingA` and hiding layer 2. -/
def sampleWidget : VectorDataPlotWidget.State :=
  VectorDataPlotWidget.set_layer_visible
    (VectorDataPlotWidget.set_vector_data VectorDataPlotWidget.initState sampleDrawingA) 2
    false

/-- A sample control-widget state with `fit_page` off and `center` on. -/
def sampleControl : PlotControlWidget.State :=
  { base_vector_data := sampleDrawingA
    vector_data := sampleDrawingA
    page := (100, 100)
    settings :=
      { page_format := .a4, landscape := false, rotated := false, center := true,
        fit_page := false, margin_value := 2, margin_unit := .cm }
    store := []
    plot := VectorDataPlotWidget.initState
    relayoutCount := 0 }

/-- The spec's worked example: a one-layer drawing with bounding box
400 × 200. -/
def sampleDrawing400 : VectorData := [(1, [[(0, 0), (400, 200)]])]

/-- A4 portrait, 2 cm margin, fit-to-page enabled. -/
def fitSettings : LayoutSettings :=
  { page_format := .a4, landscape := false, rotated := false, center := true,
    fit_page := true, margin_value := 2, margin_unit := .cm }

/-- A4 portrait, 2 cm margin, centered without fit-to-page. -/
def centerSettings : LayoutSettings :=
  { page_format := .a4, landscape := false, rotated := false, center := true,
    fit_page := false, margin_value := 2, margin_unit := .cm }

lemma alookup_eq_none {α : Type} :
    ∀ (ls : List (Nat × α)) (k : Nat), k ∉ ls.map (fun p => p.1) → alookup ls k = none := by
  intro ls
  induction ls with
  | nil => intro k _; rfl
  | cons hd tl ih =>
    obtain ⟨a, b⟩ := hd
    intro k hk
    simp only [List.map_cons, List.mem_cons] at hk
    push_neg at hk
    simp only [alookup, hk.1, if_false]
    exact ih k hk.2

lemma alookup_isSome_of_mem_keys {α : Type} :
    ∀ (ls : List (Nat × α)) (k : Nat),
      k ∈ ls.map (fun p => p.1) → ∃ b, alookup ls k = some b := by
  intro ls
  induction ls with
  | nil => intro k hk; simp at hk
  | cons hd tl ih =>
    obtain ⟨a, b⟩ := hd
    intro k hk
    by_cases h : k = a
    · exact ⟨b, by simp [alookup, h]⟩
    · simp only [List.map_cons, List.mem_cons, h, false_or] at hk
      obtain ⟨c, hc⟩ := ih k hk
      exact ⟨c, by simp [alookup, h, hc]⟩

lemma alookup_map_val {α : Type} (g : Nat → α → α) :
    ∀ (ls : List (Nat × α)) (k : Nat),
      alookup (ls.map (fun p => (p.1, g p.1 p.2))) k = (alookup ls k).map (g k) := by
  intro ls
  induction ls with
  | nil => intro k; simp [alookup]
  | cons hd tl ih =>
    obtain ⟨a, b⟩ := hd
    intro k
    by_cases h : k = a
    · subst h
      simp [alookup]
    · simp [alookup, h, ih]

lemma keys_map_val {α : Type} (g : Nat → α → α) (ls : List (Nat × α)) :
    (ls.map (fun p => (p.1, g p.1 p.2))).map (fun p => p.1) = ls.map (fun p => p.1) := by
  rw [List.map_map]
  rfl

lemma buildLayers_id_visible :
    ∀ (ids : List Nat) (idx : Nat),
      (VectorDataPlotWidget.buildLayers ids idx).map (fun p => (p.1, p.2.visible))
        = ids.map (fun lid => (lid, true)) := by
  intro ids
  induction ids with
  | nil => intro idx; rfl
  | cons hd tl ih => intro idx; simp [VectorDataPlotWidget.buildLayers, ih]

lemma replotLayers_id_visible (vd : VectorData) (ls : List (Nat × VectorDataPlotWidget.Layer)) :
    (VectorDataPlotWidget.replotLayers vd ls).map (fun p => (p.1, p.2.visible))
      = ls.map (fun p => (p.1, p.2.visible)) := by
  unfold VectorDataPlotWidget.replotLayers
  rw [List.map_map]
  apply List.map_congr_left
  intro p _
  by_cases h : p.1 ∈ VectorData.layerIds vd <;> simp [h]

lemma storeGet_set (st : Store) (k key : String) (v : SVal) :
    storeGet (storeSet st k v) key = if key = k then some v else storeGet st key := rfl

/-- C1, counterexample to the claim as stated: `sampleDrawingB` has the same
layer-identifier set `{1, 2, 3}` as `sampleDrawingA`, layer 2 is hidden
before the swap, yet after assigning `sampleDrawingB` through the
`vector_data` setter layer 2 is visible again — the visibility flags are not
preserved. -/
theorem vector_data_swap_visibility_cex :
    VectorData.layerIds sampleDrawingA = VectorData.layerIds sampleDrawingB ∧
      VectorDataPlotWidget.layer_visible sampleWidget 2 = false ∧
      VectorDataPlotWidget.layer_visible
          (VectorDataPlotWidget.set_vector_data sampleWidget sampleDrawingB) 2 = true := by
  refine ⟨rfl, ?_, ?_⟩ <;> rfl

/-- C1, amended: per-layer visibility defaults to true, and every assignment
through the `vector_data` setter rebuilds the layer registry with every
layer visible, regardless of whether the new drawing's layer-identifier set
matches the previous one. -/
theorem vector_data_setter_resets_visibility (w : VectorDataPlotWidget.State)
    (vd : VectorData) :
    (VectorDataPlotWidget.set_vector_data w vd).layers.map (fun p => (p.1, p.2.visible))
      = (VectorData.layerIds vd).map (fun lid => (lid, true)) := by
  unfold VectorDataPlotWidget.set_vector_data VectorDataPlotWidget.replot
  simp only [replotLayers_id_visible, buildLayers_id_visible]

/-- C3: the per-layer visibility and color accessors (modelled from the
spec, their definitions being absent from the widget source) are total pure
functions and return the defaults `false` and black for a layer identifier
absent from the registry. -/
theorem unknown_layer_accessors_default (w : VectorDataPlotWidget.State) (lid : Nat)
    (h : lid ∉ w.layers.map (fun p => p.1)) :
    VectorDataPlotWidget.layer_visible w lid = false ∧
      VectorDataPlotWidget.layer_color w lid = (0, 0, 0) := by
  have hl : alookup w.layers lid = none := alookup_eq_none _ _ h
  constructor <;> simp [VectorDataPlotWidget.layer_visible, VectorDataPlotWidget.layer_color, hl]

/-- Witness for C3: identifier 7 is not a layer of `sampleWidget`, and both
accessors return their defaults there. -/
theorem unknown_layer_accessors_default_witness :
    (7 ∉ sampleWidget.layers.map (fun p => p.1)) ∧
      (VectorDataPlotWidget.layer_visible sampleWidget 7 = false ∧
        VectorDataPlotWidget.layer_color sampleWidget 7 = (0, 0, 0)) :=
  ⟨by decide, unknown_layer_accessors_default sampleWidget 7 (by decide)⟩

/-- C9: calling `set_layer_visible` with an unknown layer identifier is a
complete no-op (the state, including the canvas-draw counter, is unchanged);
for a known identifier exactly one `canvas.draw()` is issued, the drawing
and replot counter are untouched, the key set is preserved, the addressed
layer's flag and its primitives are set to the new value, and every other
layer entry is unchanged. -/
theorem set_layer_visible_unknown_noop (w : VectorDataPlotWidget.State) (lid : Nat)
    (v : Bool) :
    (lid ∉ w.layers.map (fun p => p.1) →
        VectorDataPlotWidget.set_layer_visible w lid v = w) ∧
      (lid ∈ w.layers.map (fun p => p.1) →
        (VectorDataPlotWidget.set_layer_visible w lid v).canvasDrawCount
            = w.canvasDrawCount + 1 ∧
          (VectorDataPlotWidget.set_layer_visible w lid v).vector_data = w.vector_data ∧
          (VectorDataPlotWidget.set_layer_visible w lid v).replotCount = w.replotCount ∧
          (VectorDataPlotWidget.set_layer_visible w lid v).layers.map (fun p => p.1)
            = w.layers.map (fun p => p.1) ∧
          VectorDataPlotWidget.layer_visible (VectorDataPlotWidget.set_layer_visible w lid v)
              lid = v ∧
          ∀ k,
            alookup (VectorDataPlotWidget.set_layer_visible w lid v).layers k
              = if k = lid then
                  (alookup w.layers k).map (fun l =>
                    { l with visible := v, lines := l.lines.map (fun _ => v) })
                else alookup w.layers k) := by
  constructor
  · intro h
    simp [VectorDataPlotWidget.set_layer_visible, h]
  · intro h
    obtain ⟨l, hl⟩ := alookup_isSome_of_mem_keys w.layers lid h
    have hres : (VectorDataPlotWidget.set_layer_visible w lid v).layers
        = w.layers.map (fun p =>
            (p.1,
              if p.1 = lid then
                { p.2 with visible := v, lines := p.2.lines.map (fun _ => v) }
              else p.2)) := by
      unfold VectorDataPlotWidget.set_layer_visible
      rw [if_pos h]
    have hcnt : (VectorDataPlotWidget.set_layer_visible w lid v).canvasDrawCount
        = w.canvasDrawCount + 1 := by
      unfold VectorDataPlotWidget.set_layer_visible
      rw [if_pos h]
    have hvd : (VectorDataPlotWidget.set_layer_visible w lid v).vector_data = w.vector_data := by
      unfold VectorDataPlotWidget.set_layer_visible
      rw [if_pos h]
    have hrc : (VectorDataPlotWidget.set_layer_visible w lid v).replotCount = w.replotCount := by
      unfold VectorDataPlotWidget.set_layer_visible
      rw [if_pos h]
    have hkey : ∀ k,
        alookup (VectorDataPlotWidget.set_layer_visible w lid v).layers k
          = (alookup w.layers k).map (fun layer =>
              if k = lid then
                { layer with visible := v, lines := layer.lines.map (fun _ => v) }
              else layer) := by
      intro k
      rw [hres]
      exact alookup_map_val
        (fun key layer =>
          if key = lid then
            { layer with visible := v, lines := layer.lines.map (fun _ => v) }
          else layer)
        w.layers k
    refine ⟨hcnt, hvd, hrc, ?_, ?_, ?_⟩
    · rw [hres]
      exact keys_map_val
        (fun key layer =>
          if key = lid then
            { layer with visible := v, lines := layer.lines.map (fun _ => v) }
          else layer)
        w.layers
    · unfold VectorDataPlotWidget.layer_visible
      rw [hkey lid, hl]
      simp
    · intro k
      rw [hkey k]
      by_cases hk : k = lid
      · subst hk
        simp
      · simp [hk]

/-- Witness for C9: on `sampleWidget`, identifier 7 is unknown and the call
is a no-op; identifier 1 is known and gets exactly one canvas draw. -/
theorem set_layer_visible_unknown_noop_witness :
    ((7 ∉ sampleWidget.layers.map (fun p => p.1)) ∧
        VectorDataPlotWidget.set_layer_visible sampleWidget 7 false = sampleWidget) ∧
      ((1 ∈ sampleWidget.layers.map (fun p => p.1)) ∧
        (VectorDataPlotWidget.set_layer_visible sampleWidget 1 false).canvasDrawCount
          = sampleWidget.canvasDrawCount + 1) :=
  ⟨⟨by decide, (set_layer_visible_unknown_noop sampleWidget 7 false).1 (by decide)⟩,
    ⟨by decide, ((set_layer_visible_unknown_noop sampleWidget 1 false).2 (by decide)).1⟩⟩

/-- C5: `walk_x(0)` and `walk_y(0)` leave the driver state completely
untouched (no option writes, no run), while for any nonzero distance `d`
both commands set the driver's manual walk command and distance and invoke
the driver's run exactly once. -/
theorem walk_zero_noop_nonzero_runs_once (ad : Axy.State) (d : ℚ) (hd : d ≠ 0) :
    Axy.walk_x ad 0 = ad ∧ Axy.walk_y ad 0 = ad ∧
      (Axy.walk_x ad d).runCount = ad.runCount + 1 ∧
      (Axy.walk_x ad d).options.mode = "manual" ∧
      (Axy.walk_x ad d).options.manual_cmd = "walk_x" ∧
      (Axy.walk_x ad d).options.walk_dist = d ∧
      (Axy.walk_y ad d).runCount = ad.runCount + 1 ∧
      (Axy.walk_y ad d).options.mode = "manual" ∧
      (Axy.walk_y ad d).options.manual_cmd = "walk_y" ∧
      (Axy.walk_y ad d).options.walk_dist = d := by
  simp [Axy.walk_x, Axy.walk_y, hd]

/-- Witness for C5 at distance 5 on a concrete driver state. -/
theorem walk_zero_noop_nonzero_runs_once_witness :
    (5 : ℚ) ≠ 0 ∧
      (Axy.walk_x ⟨⟨"", "", 0, false⟩, 0⟩ 0 = ⟨⟨"", "", 0, false⟩, 0⟩ ∧
        Axy.walk_y ⟨⟨"", "", 0, false⟩, 0⟩ 0 = ⟨⟨"", "", 0, false⟩, 0⟩ ∧
        (Axy.walk_x ⟨⟨"", "", 0, false⟩, 0⟩ 5).runCount = 0 + 1 ∧
        (Axy.walk_x ⟨⟨"", "", 0, false⟩, 0⟩ 5).options.mode = "manual" ∧
        (Axy.walk_x ⟨⟨"", "", 0, false⟩, 0⟩ 5).options.manual_cmd = "walk_x" ∧
        (Axy.walk_x ⟨⟨"", "", 0, false⟩, 0⟩ 5).options.walk_dist = 5 ∧
        (Axy.walk_y ⟨⟨"", "", 0, false⟩, 0⟩ 5).runCount = 0 + 1 ∧
        (Axy.walk_y ⟨⟨"", "", 0, false⟩, 0⟩ 5).options.mode = "manual" ∧
        (Axy.walk_y ⟨⟨"", "", 0, false⟩, 0⟩ 5).options.manual_cmd = "walk_y" ∧
        (Axy.walk_y ⟨⟨"", "", 0, false⟩, 0⟩ 5).options.walk_dist = 5) :=
  ⟨by norm_num, walk_zero_noop_nonzero_runs_once ⟨⟨"", "", 0, false⟩, 0⟩ 5 (by norm_num)⟩

/-- C8, counterexample to the claim as stated: on the freshly initialized
widget `show_grid` is false, but after `show_axes = true` the `show_grid`
flag has changed to true — setting `show_axes` does not leave `show_grid`
unchanged. -/
theorem show_axes_changes_show_grid_cex :
    VectorDataPlotWidget.initState.show_grid = false ∧
      (VectorDataPlotWidget.set_show_axes VectorDataPlotWidget.initState true).show_grid
        = true ∧
      storeGet (VectorDataPlotWidget.set_show_axes VectorDataPlotWidget.initState true).store
          "show_grid" = some (SVal.b true) :=
  ⟨rfl, rfl, rfl⟩

/-- C8, amended: each boolean display-option setter except `show_axes`
mutates exactly its own display flag and persists exactly that one key,
leaving the other display flags and their persisted keys unchanged; the
`show_axes` setter mutates and persists both `show_axes` and `show_grid`,
setting them to the same value, while leaving the remaining flags and keys
unchanged. -/
theorem display_setters_frame (w : VectorDataPlotWidget.State) (v : Bool) :
    ((VectorDataPlotWidget.set_colorful w v).colorful = v ∧
        (VectorDataPlotWidget.set_colorful w v).show_points = w.show_points ∧
        (VectorDataPlotWidget.set_colorful w v).show_pen_up = w.show_pen_up ∧
        (VectorDataPlotWidget.set_colorful w v).show_axes = w.show_axes ∧
        (VectorDataPlotWidget.set_colorful w v).show_grid = w.show_grid ∧
        (VectorDataPlotWidget.set_colorful w v).show_legend = w.show_legend ∧
        storeGet (VectorDataPlotWidget.set_colorful w v).store "colorful"
          = some (SVal.b v) ∧
        storeGet (VectorDataPlotWidget.set_colorful w v).store "show_points"
          = storeGet w.store "show_points" ∧
        storeGet (VectorDataPlotWidget.set_colorful w v).store "show_pen_up"
          = storeGet w.store "show_pen_up" ∧
        storeGet (VectorDataPlotWidget.set_colorful w v).store "show_axes"
          = storeGet w.store "show_axes" ∧
        storeGet (VectorDataPlotWidget.set_colorful w v).store "show_grid"
          = storeGet w.store "show_grid" ∧
        storeGet (VectorDataPlotWidget.set_colorful w v).store "show_legend"
          = storeGet w.store "show_legend") ∧
      ((VectorDataPlotWidget.set_show_points w v).show_points = v ∧
        (VectorDataPlotWidget.set_show_points w v).colorful = w.colorful ∧
        (VectorDataPlotWidget.set_show_points w v).show_pen_up = w.show_pen_up ∧
        (VectorDataPlotWidget.set_show_points w v).show_axes = w.show_axes ∧
        (VectorDataPlotWidget.set_show_points w v).show_grid = w.show_grid ∧
        (VectorDataPlotWidget.set_show_points w v).show_legend = w.show_legend ∧
        storeGet (VectorDataPlotWidget.set_show_points w v).store "show_points"
          = some (SVal.b v) ∧
        storeGet (VectorDataPlotWidget.set_show_points w v).store "colorful"
          = storeGet w.store "colorful" ∧
        storeGet (VectorDataPlotWidget.set_show_points w v).store "show_grid"
          = storeGet w.store "show_grid") ∧
      ((VectorDataPlotWidget.set_show_pen_up w v).show_pen_up = v ∧
        (VectorDataPlotWidget.set_show_pen_up w v).colorful = w.colorful ∧
        (VectorDataPlotWidget.set_show_pen_up w v).show_points = w.show_points ∧
        (VectorDataPlotWidget.set_show_pen_up w v).show_axes = w.show_axes ∧
        (VectorDataPlotWidget.set_show_pen_up w v).show_grid = w.show_grid ∧
        (VectorDataPlotWidget.set_show_pen_up w v).show_legend = w.show_legend ∧
        storeGet (VectorDataPlotWidget.set_show_pen_up w v).store "show_pen_up"
          = some (SVal.b v) ∧
        storeGet (VectorDataPlotWidget.set_show_pen_up w v).store "show_grid"
          = storeGet w.store "show_grid") ∧
      ((VectorDataPlotWidget.set_show_legend w v).show_legend = v ∧
        (VectorDataPlotWidget.set_show_legend w v).colorful = w.colorful ∧
        (VectorDataPlotWidget.set_show_legend w v).show_points = w.show_points ∧
        (VectorDataPlotWidget.set_show_legend w v).show_pen_up = w.show_pen_up ∧
        (VectorDataPlotWidget.set_show_legend w v).show_axes = w.show_axes ∧
        (VectorDataPlotWidget.set_show_legend w v).show_grid = w.show_grid ∧
        storeGet (VectorDataPlotWidget.set_show_legend w v).store "show_legend"
          = some (SVal.b v) ∧
        storeGet (VectorDataPlotWidget.set_show_legend w v).store "show_grid"
          = storeGet w.store "show_grid") ∧
      ((VectorDataPlotWidget.set_show_axes w v).show_axes = v ∧
        (VectorDataPlotWidget.set_show_axes w v).show_grid = v ∧
        (VectorDataPlotWidget.set_show_axes w v).colorful = w.colorful ∧
        (VectorDataPlotWidget.set_show_axes w v).show_points = w.show_points ∧
        (VectorDataPlotWidget.set_show_axes w v).show_pen_up = w.show_pen_up ∧
        (VectorDataPlotWidget.set_show_axes w v).show_legend = w.show_legend ∧
        storeGet (VectorDataPlotWidget.set_show_axes w v).store "show_axes"
          = some (SVal.b v) ∧
        storeGet (VectorDataPlotWidget.set_show_axes w v).store "show_grid"
          = some (SVal.b v) ∧
        storeGet (VectorDataPlotWidget.set_show_axes w v).store "colorful"
          = storeGet w.store "colorful" ∧
        storeGet (VectorDataPlotWidget.set_show_axes w v).store "show_points"
          = storeGet w.store "show_points" ∧
        storeGet (VectorDataPlotWidget.set_show_axes w v).store "show_pen_up"
          = storeGet w.store "show_pen_up" ∧
        storeGet (VectorDataPlotWidget.set_show_axes w v).store "show_legend"
          = storeGet w.store "show_legend") := by
  repeat' apply And.intro
  all_goals
    simp [VectorDataPlotWidget.set_colorful, VectorDataPlotWidget.set_show_points,
      VectorDataPlotWidget.set_show_pen_up, VectorDataPlotWidget.set_show_legend,
      VectorDataPlotWidget.set_show_axes, VectorDataPlotWidget.replot, storeGet_set]

/-- C7, counterexample to the claim as stated: on `sampleControl` (where
`fit_page` is off) the margin setter persists the new value but does not
trigger any re-layout — the `update_view` counter is unchanged. -/
theorem set_margin_no_relayout_cex :
    sampleControl.settings.fit_page = false ∧
      (PlotControlWidget.set_margin sampleControl 5 UnitT.px).relayoutCount
        = sampleControl.relayoutCount ∧
      (PlotControlWidget.set_margin sampleControl 5 UnitT.px).vector_data
        = sampleControl.vector_data ∧
      (PlotControlWidget.set_margin sampleControl 5 UnitT.px).settings.margin_value = 5 :=
  ⟨rfl, rfl, rfl, rfl⟩

/-- C7, amended: the page-format, landscape, rotated, center and fit-to-page
setters each persist the new value and trigger exactly one full re-layout
(recomputing the placed drawing from the base drawing); the margin setter
persists both the value and the unit but triggers a re-layout only when
`fit_page` is set. -/
theorem layout_setters_persist_and_relayout (st : PlotControlWidget.State)
    (pf : PageFormatT) (bv : Bool) (v : ℚ) (u : UnitT) :
    ((PlotControlWidget.set_page_format st pf).settings.page_format = pf ∧
        storeGet (PlotControlWidget.set_page_format st pf).store "page_format"
          = some (SVal.s (pfName pf)) ∧
        (PlotControlWidget.set_page_format st pf).relayoutCount = st.relayoutCount + 1 ∧
        (PlotControlWidget.set_page_format st pf).vector_data
          = (updateView st.base_vector_data { st.settings with page_format := pf }).1) ∧
      ((PlotControlWidget.set_landscape st bv).settings.landscape = bv ∧
        storeGet (PlotControlWidget.set_landscape st bv).store "landscape"
          = some (SVal.b bv) ∧
        (PlotControlWidget.set_landscape st bv).relayoutCount = st.relayoutCount + 1 ∧
        (PlotControlWidget.set_landscape st bv).vector_data
          = (updateView st.base_vector_data { st.settings with landscape := bv }).1) ∧
      ((PlotControlWidget.set_rotated st bv).settings.rotated = bv ∧
        storeGet (PlotControlWidget.set_rotated st bv).store "rotated" = some (SVal.b bv) ∧
        (PlotControlWidget.set_rotated st bv).relayoutCount = st.relayoutCount + 1 ∧
        (PlotControlWidget.set_rotated st bv).vector_data
          = (updateView st.base_vector_data { st.settings with rotated := bv }).1) ∧
      ((PlotControlWidget.set_center st bv).settings.center = bv ∧
        storeGet (PlotControlWidget.set_center st bv).store "center" = some (SVal.b bv) ∧
        (PlotControlWidget.set_center st bv).relayoutCount = st.relayoutCount + 1 ∧
        (PlotControlWidget.set_center st bv).vector_data
          = (updateView st.base_vector_data { st.settings with center := bv }).1) ∧
      ((PlotControlWidget.set_fit_page st bv).settings.fit_page = bv ∧
        storeGet (PlotControlWidget.set_fit_page st bv).store "fit_page"
          = some (SVal.b bv) ∧
        (PlotControlWidget.set_fit_page st bv).relayoutCount = st.relayoutCount + 1 ∧
        (PlotControlWidget.set_fit_page st bv).vector_data
          = (updateView st.base_vector_data { st.settings with fit_page := bv }).1) ∧
      ((PlotControlWidget.set_margin st v u).settings.margin_value = v ∧
        (PlotControlWidget.set_margin st v u).settings.margin_unit = u ∧
        storeGet (PlotControlWidget.set_margin st v u).store "margin_value"
          = some (SVal.q v) ∧
        storeGet (PlotControlWidget.set_margin st v u).store "margin_unit"
          = some (SVal.s (unitName u)) ∧
        (PlotControlWidget.set_margin st v u).relayoutCount
          = (if st.settings.fit_page then st.relayoutCount + 1 else st.relayoutCount)) := by
  repeat' apply And.intro
  all_goals
    by_cases hf : st.settings.fit_page <;>
      simp [PlotControlWidget.set_page_format, PlotControlWidget.set_landscape,
        PlotControlWidget.set_rotated, PlotControlWidget.set_center,
        PlotControlWidget.set_fit_page, PlotControlWidget.set_margin,
        PlotControlWidget.update_view, storeGet_set, hf]

/-- C4: re-running `update_view` twice in succession yields exactly the
placed output of a single run — the placement is always recomputed from the
untouched base drawing (which `update_view` never modifies), so
transformations never accumulate. -/
theorem update_view_idempotent (st : PlotControlWidget.State) :
    (PlotControlWidget.update_view (PlotControlWidget.update_view st)).vector_data
        = (PlotControlWidget.update_view st).vector_data ∧
      (PlotControlWidget.update_view (PlotControlWidget.update_view st)).page
        = (PlotControlWidget.update_view st).page ∧
      (PlotControlWidget.update_view (PlotControlWidget.update_view st)).plot.vector_data
        = (PlotControlWidget.update_view st).plot.vector_data ∧
      (PlotControlWidget.update_view (PlotControlWidget.update_view st)).plot.page_format
        = (PlotControlWidget.update_view st).plot.page_format ∧
      (PlotControlWidget.update_view (PlotControlWidget.update_view st)).plot.layers
        = (PlotControlWidget.update_view st).plot.layers ∧
      (PlotControlWidget.update_view st).base_vector_data = st.base_vector_data ∧
      (PlotControlWidget.update_view st).settings = st.settings :=
  ⟨rfl, rfl, rfl, rfl, rfl, rfl, rfl⟩

lemma foldl_add_acc (vis : Nat → Bool) :
    ∀ (vd : VectorData) (acc : LineCollection),
      vd.foldl (fun a p => if vis p.1 then VectorData.add a p.2 1 else a) [(1, acc)]
        = [(1, acc ++ ((vd.filter (fun p => vis p.1)).map (fun p => p.2)).flatten)] := by
  intro vd
  induction vd with
  | nil => intro acc; simp
  | cons hd tl ih =>
    intro acc
    by_cases h : vis hd.1
    · have hadd : VectorData.add [(1, acc)] hd.2 1 = [(1, acc ++ hd.2)] := by
        simp [VectorData.add, VectorData.layerIds]
      simp [List.foldl_cons, h, hadd, ih, List.filter_cons]
    · simp [List.foldl_cons, h, ih, List.filter_cons]

/-- C10: the drawing assembled by `plot_svg` and handed to the device
contains exactly the line collections of the currently visible layers, in
drawing order, all merged under the single output layer identifier 1; in
particular the original layer identifiers are not preserved (the output has
no layer other than 1, and is empty when no layer is visible). -/
theorem plot_svg_merges_visible_layers_under_one (st : PlotControlWidget.State) :
    PlotControlWidget.plot_svg_data st
      = (if st.vector_data.filter
              (fun p => VectorDataPlotWidget.layer_visible st.plot p.1) = ([] : VectorData)
          then ([] : VectorData)
          else
            [(1,
              ((st.vector_data.filter
                    (fun p => VectorDataPlotWidget.layer_visible st.plot p.1)).map
                  (fun p => p.2)).flatten)]) := by
  unfold PlotControlWidget.plot_svg_data
  generalize st.vector_data = vd
  induction vd with
  | nil => simp
  | cons hd tl ih =>
    by_cases h : VectorDataPlotWidget.layer_visible st.plot hd.1
    · have hadd : VectorData.add [] hd.2 1 = [(1, hd.2)] := by
        simp [VectorData.add, VectorData.layerIds]
      simp [List.foldl_cons, h, hadd,
        foldl_add_acc (fun lid => VectorDataPlotWidget.layer_visible st.plot lid) tl hd.2,
        List.filter_cons]
    · have hf : VectorDataPlotWidget.layer_visible st.plot hd.1 = false := by
        simpa using h
      have hflt :
          List.filter (fun p => VectorDataPlotWidget.layer_visible st.plot p.1) (hd :: tl)
            = List.filter (fun p => VectorDataPlotWidget.layer_visible st.plot p.1) tl := by
        simp [List.filter_cons, hf]
      rw [List.foldl_cons, if_neg (by simp [hf]), ih, hflt]

lemma allPoints_mapPoints (f : Point → Point) (vd : VectorData) :
    VectorData.allPoints (VectorData.mapPoints f vd) = (VectorData.allPoints vd).map f := by
  unfold VectorData.allPoints VectorData.mapPoints
  induction vd with
  | nil => rfl
  | cons hd tl ih =>
    simp only [List.map_cons, List.flatten_cons, List.map_append, ih]
    congr 1
    exact (List.map_flatten f hd.2).symm

lemma foldl_stretch_hom (f : Point → Point) (F : BBox → BBox)
    (hcomm : ∀ (b : BBox) (p : Point), stretch (F b) (f p) = F (stretch b p)) :
    ∀ (ps : List Point) (b : BBox), (ps.map f).foldl stretch (F b) = F (ps.foldl stretch b) := by
  intro ps
  induction ps with
  | nil => intro b; rfl
  | cons p ps ih =>
    intro b
    simp only [List.map_cons, List.foldl_cons, hcomm]
    exact ih (stretch b p)

lemma bboxOfPoints_map (f : Point → Point) (F : BBox → BBox)
    (hcomm : ∀ (b : BBox) (p : Point), stretch (F b) (f p) = F (stretch b p))
    (hone : ∀ p : Point, (⟨(f p).1, (f p).2, (f p).1, (f p).2⟩ : BBox) = F ⟨p.1, p.2, p.1, p.2⟩) :
    ∀ ps : List Point, bboxOfPoints (ps.map f) = (bboxOfPoints ps).map F := by
  intro ps
  cases ps with
  | nil => rfl
  | cons p ps =>
    simp only [List.map_cons, bboxOfPoints, hone, Option.map_some]
    rw [foldl_stretch_hom f F hcomm]
    rfl

lemma bounds_translate (dx dy : ℚ) (vd : VectorData) :
    VectorData.bounds (VectorData.translate dx dy vd)
      = (VectorData.bounds vd).map
          (fun b => ⟨b.minX + dx, b.minY + dy, b.maxX + dx, b.maxY + dy⟩) := by
  unfold VectorData.bounds VectorData.translate
  rw [allPoints_mapPoints]
  apply bboxOfPoints_map
  · intro b p
    unfold stretch
    simp only [BBox.mk.injEq]
    exact ⟨min_add_add_right b.minX p.1 dx, min_add_add_right b.minY p.2 dy,
      max_add_add_right b.maxX p.1 dx, max_add_add_right b.maxY p.2 dy⟩
  · intro p
    rfl

lemma bounds_scale (sc : ℚ) (hsc : 0 ≤ sc) (vd : VectorData) :
    VectorData.bounds (VectorData.scale sc vd)
      = (VectorData.bounds vd).map
          (fun b => ⟨sc * b.minX, sc * b.minY, sc * b.maxX, sc * b.maxY⟩) := by
  unfold VectorData.bounds VectorData.scale
  rw [allPoints_mapPoints]
  apply bboxOfPoints_map
  · intro b p
    unfold stretch
    simp only [BBox.mk.injEq]
    exact ⟨(mul_min_of_nonneg b.minX p.1 hsc).symm, (mul_min_of_nonneg b.minY p.2 hsc).symm,
      (mul_max_of_nonneg b.maxX p.1 hsc).symm, (mul_max_of_nonneg b.maxY p.2 hsc).symm⟩
  · intro p
    rfl

lemma bounds_place (vd : VectorData) (b : BBox) (hb : VectorData.bounds vd = some b)
    (sc tx ty : ℚ) (hsc : 0 ≤ sc) :
    VectorData.bounds
        (VectorData.translate tx ty
          (VectorData.scale sc (VectorData.translate (-b.minX) (-b.minY) vd)))
      = some
          ⟨sc * (b.minX + -b.minX) + tx, sc * (b.minY + -b.minY) + ty,
            sc * (b.maxX + -b.minX) + tx, sc * (b.maxY + -b.minY) + ty⟩ := by
  rw [bounds_translate, bounds_scale sc hsc, bounds_translate, hb]
  rfl

lemma layoutStep_of_bounds (s : LayoutSettings) (vd : VectorData) (b : BBox)
    (h : VectorData.bounds vd = some b) :
    layoutStep s vd
      = (if s.fit_page then placeFit s b vd
          else if s.center then
            VectorData.translate (((effSize s).1 - (b.maxX - b.minX)) / 2 - b.minX)
              (((effSize s).2 - (b.maxY - b.minY)) / 2 - b.minY) vd
          else vd) := by
  unfold layoutStep
  rw [h]

set_option maxHeartbeats 1000000 in
/-- C2: for a drawing with nondegenerate bounds laid out with `fit_page`
set, a positive margin, and a page whose extent exceeds twice the margin on
both axes, the output of `update_view` has a bounding box whose extents are
the input extents scaled by `min(factor_x, factor_y)` (the uniform,
aspect-preserving scale), which is fully contained within the page minus the
margin on both axes, is flush against the margin on the constraining axis,
and is centered within the margin band on the other axis. -/
theorem fit_page_layout (base : VectorData) (s : LayoutSettings) (b : BBox)
    (hfit : s.fit_page = true)
    (hb : VectorData.bounds (postRotate s base) = some b)
    (hx : b.minX < b.maxX) (hy : b.minY < b.maxY)
    (hm : 0 < marginPx s)
    (hWm : 2 * marginPx s < (effSize s).1)
    (hHm : 2 * marginPx s < (effSize s).2) :
    ∃ c : BBox,
      VectorData.bounds (updateView base s).1 = some c ∧
        c.maxX - c.minX = (b.maxX - b.minX) * min (fitFactorX s b) (fitFactorY s b) ∧
        c.maxY - c.minY = (b.maxY - b.minY) * min (fitFactorX s b) (fitFactorY s b) ∧
        marginPx s ≤ c.minX ∧
        c.maxX ≤ (effSize s).1 - marginPx s ∧
        marginPx s ≤ c.minY ∧
        c.maxY ≤ (effSize s).2 - marginPx s ∧
        ((c.minX = marginPx s ∧ c.maxX = (effSize s).1 - marginPx s ∧
            c.minY - marginPx s = ((effSize s).2 - marginPx s) - c.maxY) ∨
          (c.minY = marginPx s ∧ c.maxY = (effSize s).2 - marginPx s ∧
            c.minX - marginPx s = ((effSize s).1 - marginPx s) - c.maxX)) := by
  have hbw : (0 : ℚ) < b.maxX - b.minX := by linarith
  have hbh : (0 : ℚ) < b.maxY - b.minY := by linarith
  have hfx : 0 < fitFactorX s b := div_pos (by linarith) hbw
  have hfy : 0 < fitFactorY s b := div_pos (by linarith) hbh
  have hsc0 : 0 ≤ min (fitFactorX s b) (fitFactorY s b) := le_min hfx.le hfy.le
  have key1 : (b.maxX - b.minX) * fitFactorX s b = (effSize s).1 - 2 * marginPx s := by
    unfold fitFactorX
    rw [mul_comm]
    exact div_mul_cancel₀ _ (ne_of_gt hbw)
  have key2 : (b.maxY - b.minY) * fitFactorY s b = (effSize s).2 - 2 * marginPx s := by
    unfold fitFactorY
    rw [mul_comm]
    exact div_mul_cancel₀ _ (ne_of_gt hbh)
  have hscx : (b.maxX - b.minX) * min (fitFactorX s b) (fitFactorY s b)
      ≤ (effSize s).1 - 2 * marginPx s := by
    calc (b.maxX - b.minX) * min (fitFactorX s b) (fitFactorY s b)
        ≤ (b.maxX - b.minX) * fitFactorX s b :=
          mul_le_mul_of_nonneg_left (min_le_left _ _) hbw.le
      _ = (effSize s).1 - 2 * marginPx s := key1
  have hscy : (b.maxY - b.minY) * min (fitFactorX s b) (fitFactorY s b)
      ≤ (effSize s).2 - 2 * marginPx s := by
    calc (b.maxY - b.minY) * min (fitFactorX s b) (fitFactorY s b)
        ≤ (b.maxY - b.minY) * fitFactorY s b :=
          mul_le_mul_of_nonneg_left (min_le_right _ _) hbh.le
      _ = (effSize s).2 - 2 * marginPx s := key2
  rw [show (updateView base s).1 = layoutStep s (postRotate s base) from rfl,
    layoutStep_of_bounds s _ b hb]
  simp only [hfit, if_true]
  unfold placeFit
  by_cases hcase : fitFactorX s b < fitFactorY s b
  · rw [if_pos hcase]
    have hmin : min (fitFactorX s b) (fitFactorY s b) = fitFactorX s b := min_eq_left hcase.le
    have e4 : (b.maxX - b.minX) * min (fitFactorX s b) (fitFactorY s b)
        = (effSize s).1 - 2 * marginPx s := by rw [hmin]; exact key1
    have hbb :=
      bounds_place (postRotate s base) b hb (min (fitFactorX s b) (fitFactorY s b))
        (marginPx s)
        (marginPx s +
          ((effSize s).2 - 2 * marginPx s -
              (b.maxY - b.minY) * min (fitFactorX s b) (fitFactorY s b)) / 2)
        hsc0
    refine ⟨_, hbb, ?_, ?_, ?_, ?_, ?_, ?_, ?_⟩ <;> dsimp only
    · ring
    · ring
    · linarith [hsc0]
    · linarith [hscx, e4]
    · linarith [hscy]
    · linarith [hscy]
    · refine Or.inl ⟨by linarith [hsc0], by linarith [e4], by linarith [hscy]⟩
  · rw [if_neg hcase]
    have hmin : min (fitFactorX s b) (fitFactorY s b) = fitFactorY s b :=
      min_eq_right (le_of_not_lt hcase)
    have e5 : (b.maxY - b.minY) * min (fitFactorX s b) (fitFactorY s b)
        = (effSize s).2 - 2 * marginPx s := by rw [hmin]; exact key2
    have hbb :=
      bounds_place (postRotate s base) b hb (min (fitFactorX s b) (fitFactorY s b))
        (marginPx s +
          ((effSize s).1 - 2 * marginPx s -
              (b.maxX - b.minX) * min (fitFactorX s b) (fitFactorY s b)) / 2)
        (marginPx s)
        hsc0
    refine ⟨_, hbb, ?_, ?_, ?_, ?_, ?_, ?_, ?_⟩ <;> dsimp only
    · ring
    · ring
    · linarith [hscx]
    · linarith [hscx]
    · linarith [hsc0]
    · linarith [hscy, e5]
    · refine Or.inr ⟨by linarith [hsc0], by linarith [e5], by linarith [hscx]⟩

/-- Witness for C2: the spec's worked example — a 400 × 200 drawing on an A4
portrait page with a 2 cm margin and fit-to-page enabled. -/
theorem fit_page_layout_witness :
    fitSettings.fit_page = true ∧
      VectorData.bounds (postRotate fitSettings sampleDrawing400) = some ⟨0, 0, 400, 200⟩ ∧
      (∃ c : BBox,
        VectorData.bounds (updateView sampleDrawing400 fitSettings).1 = some c ∧
          c.maxX - c.minX
            = ((⟨0, 0, 400, 200⟩ : BBox).maxX - (⟨0, 0, 400, 200⟩ : BBox).minX) *
                min (fitFactorX fitSettings ⟨0, 0, 400, 200⟩)
                  (fitFactorY fitSettings ⟨0, 0, 400, 200⟩) ∧
          c.maxY - c.minY
            = ((⟨0, 0, 400, 200⟩ : BBox).maxY - (⟨0, 0, 400, 200⟩ : BBox).minY) *
                min (fitFactorX fitSettings ⟨0, 0, 400, 200⟩)
                  (fitFactorY fitSettings ⟨0, 0, 400, 200⟩) ∧
          marginPx fitSettings ≤ c.minX ∧
          c.maxX ≤ (effSize fitSettings).1 - marginPx fitSettings ∧
          marginPx fitSettings ≤ c.minY ∧
          c.maxY ≤ (effSize fitSettings).2 - marginPx fitSettings ∧
          ((c.minX = marginPx fitSettings ∧
              c.maxX = (effSize fitSettings).1 - marginPx fitSettings ∧
              c.minY - marginPx fitSettings
                = ((effSize fitSettings).2 - marginPx fitSettings) - c.maxY) ∨
            (c.minY = marginPx fitSettings ∧
              c.maxY = (effSize fitSettings).2 - marginPx fitSettings ∧
              c.minX - marginPx fitSettings
                = ((effSize fitSettings).1 - marginPx fitSettings) - c.maxX))) := by
  have hb : VectorData.bounds (postRotate fitSettings sampleDrawing400)
      = some ⟨0, 0, 400, 200⟩ := by decide
  refine ⟨rfl, hb,
    fit_page_layout sampleDrawing400 fitSettings ⟨0, 0, 400, 200⟩ rfl hb ?_ ?_ ?_ ?_ ?_⟩
  · norm_num
  · norm_num
  · norm_num [marginPx, convert, fitSettings]
  · norm_num [marginPx, convert, effSize, pageSizePx, mmToPx, fitSettings]
  · norm_num [marginPx, convert, effSize, pageSizePx, mmToPx, fitSettings]

/-- C6: for a non-empty drawing laid out with `fit_page` unset and `center`
set, the center of the output bounding box equals the center of the full
page on both axes (exactly, in the rational model), and the output is
independent of the configured margin value and unit. -/
theorem center_layout (base : VectorData) (s : LayoutSettings) (b : BBox)
    (hfit : s.fit_page = false) (hcen : s.center = true)
    (hb : VectorData.bounds (postRotate s base) = some b) :
    (∃ c : BBox,
        VectorData.bounds (updateView base s).1 = some c ∧
          c.minX + c.maxX = (effSize s).1 ∧ c.minY + c.maxY = (effSize s).2) ∧
      ∀ (v : ℚ) (u : UnitT),
        (updateView base { s with margin_value := v, margin_unit := u }).1
          = (updateView base s).1 := by
  constructor
  · rw [show (updateView base s).1 = layoutStep s (postRotate s base) from rfl,
      layoutStep_of_bounds s _ b hb]
    simp only [hfit, hcen, Bool.false_eq_true, if_false, if_true]
    rw [bounds_translate, hb]
    refine ⟨_, rfl, ?_, ?_⟩ <;> dsimp only
    · ring
    · ring
  · intro v u
    have hb2 :
        VectorData.bounds
            (postRotate { s with margin_value := v, margin_unit := u } base)
          = some b := hb
    rw [show (updateView base { s with margin_value := v, margin_unit := u }).1
          = layoutStep { s with margin_value := v, margin_unit := u }
              (postRotate { s with margin_value := v, margin_unit := u } base) from rfl,
      layoutStep_of_bounds _ _ b hb2,
      show (updateView base s).1 = layoutStep s (postRotate s base) from rfl,
      layoutStep_of_bounds s _ b hb]
    simp only [hfit, hcen, Bool.false_eq_true, if_false, if_true]
    rfl

/-- Witness for C6: the 400 × 200 drawing centered (without fit) on an A4
portrait page. -/
theorem center_layout_witness :
    centerSettings.fit_page = false ∧ centerSettings.center = true ∧
      VectorData.bounds (postRotate centerSettings sampleDrawing400)
        = some ⟨0, 0, 400, 200⟩ ∧
      ((∃ c : BBox,
          VectorData.bounds (updateView sampleDrawing400 centerSettings).1 = some c ∧
            c.minX + c.maxX = (effSize centerSettings).1 ∧
            c.minY + c.maxY = (effSize centerSettings).2) ∧
        ∀ (v : ℚ) (u : UnitT),
          (updateView sampleDrawing400
              { centerSettings with margin_value := v, margin_unit := u }).1
            = (updateView sampleDrawing400 centerSettings).1) := by
  have hb : VectorData.bounds (postRotate centerSettings sampleDrawing400)
      = some ⟨0, 0, 400, 200⟩ := by decide
  exact ⟨rfl, rfl, hb,
    center_layout sampleDrawing400 centerSettings ⟨0, 0, 400, 200⟩ rfl rfl hb⟩
